import Mathlib

/-!
Verification of the `pymongo_wrapper` library (files `pipeline.py`,
`connection.py`, `repository.py`, `mixins.py`) against its natural-language
specification.

Python dictionaries are modelled as association lists `List (String × α)`
with insertion-ordered keys: assigning to an existing key overwrites the
value in place (keeping the key's original position), assigning to a fresh
key appends it at the end.  This matches CPython (3.7+) semantics, on which
`pipeline.py` relies for stage payloads.

Fallible Python code is modelled with `Except PyError`; a Python method that
can return `None` is modelled with `Option`.
-/

set_option autoImplicit false

/-- A BSON-like value: the payloads stored inside pipeline stages.
Strings, integers and (ordered) documents cover everything `pipeline.py`
itself constructs; arbitrary caller-supplied expressions are represented by
whatever `BVal` the caller passes in. -/
inductive BVal where
  | str : String → BVal
  | int : Int → BVal
  | doc : List (String × BVal) → BVal

/-- A Python `dict` assignment `d[k] = v`: overwrite in place if the key is
present, else append at the end. -/
def dinsert {α : Type} (d : List (String × α)) (k : String) (v : α) : List (String × α) :=
  match d with
  | [] => [(k, v)]
  | (k', v') :: rest => if k' = k then (k, v) :: rest else (k', v') :: dinsert rest k v

/-- Python `d.update(l)` / iterated assignment of the pairs of `l` into `d`,
left to right. -/
def dupdate {α : Type} (d : List (String × α)) (l : List (String × α)) : List (String × α) :=
  l.foldl (fun a p => dinsert a p.1 p.2) d

/-- The Python `dict(pairs)` constructor: iterated assignment into an empty
dict. -/
def pyDict {α : Type} (l : List (String × α)) : List (String × α) :=
  dupdate [] l

/-- A pipeline stage: the Python dict appended to `self.pipeline` by one
builder method (e.g. `{'$match': query}`). -/
abbrev Stage : Type := List (String × BVal)

/-- One entry of the `groupby` argument of `PipelineBuilder.group`: either a
plain field-name string or a dict of computed expressions. -/
inductive GroupField where
  | fieldName : String → GroupField
  | mapping : List (String × BVal) → GroupField

/-- The `sortby` argument of `PipelineBuilder.sort`: a single
`(field, direction)` tuple or a list of such tuples. -/
inductive SortArg where
  | pair : String × Int → SortArg
  | list : List (String × Int) → SortArg

/-- Source `PipelineBuilder.__init__`: the only instance state is `self.pipeline`,
a fresh empty list per instance. -/
structure PipelineBuilder where
  pipeline : List Stage

/-- Source `PipelineBuilder()`: `self.pipeline = []`. -/
def PipelineBuilder.init : PipelineBuilder := ⟨[]⟩

/-- Source `build()`: returns `self.pipeline` (no copy, no reset). -/
def PipelineBuilder.build (self : PipelineBuilder) : List Stage :=
  self.pipeline

/-- Source `match(query)`: appends `{'$match': query}`.  (`match` is a Lean keyword,
hence the prime.) -/
def PipelineBuilder.match' (self : PipelineBuilder) (query : BVal) : PipelineBuilder :=
  ⟨self.pipeline ++ [[("$match", query)]]⟩

/-- Source `project(fields)`: appends `{'$project': fields}`. -/
def PipelineBuilder.project (self : PipelineBuilder) (fields : BVal) : PipelineBuilder :=
  ⟨self.pipeline ++ [[("$project", fields)]]⟩

/-- The loop body of `group`: a plain string `field` does
`group_stage['_id'][field] = f'${field}'`; a dict does
`group_stage['_id'][key] = value` for each of its pairs in order. -/
def groupStep (acc : List (String × BVal)) (f : GroupField) : List (String × BVal) :=
  match f with
  | .fieldName s => dinsert acc s (.str ("$" ++ s))
  | .mapping kvs => dupdate acc kvs

/-- Source `group(groupby, **kwargs)`: builds `group_stage = {'_id': {...}}` by the
loop above, then `group_stage.update(kwargs)`, then appends
`{'$group': group_stage}`.  `kwargs` is the keyword-argument dict, in the
order the keywords were written (its keys are pairwise distinct in Python). -/
def PipelineBuilder.group (self : PipelineBuilder) (groupby : List GroupField)
    (kwargs : List (String × BVal)) : PipelineBuilder :=
  ⟨self.pipeline ++
    [[("$group", .doc (dupdate [("_id", .doc (groupby.foldl groupStep []))] kwargs))]]⟩

/-- Source `sort(sortby)`: a lone tuple is wrapped into a one-element list, then
`sort_dict = dict(sortby)` and `{'$sort': sort_dict}` is appended. -/
def PipelineBuilder.sort (self : PipelineBuilder) (sortby : SortArg) : PipelineBuilder :=
  ⟨self.pipeline ++
    [[("$sort",
        .doc ((pyDict (match sortby with
                       | .pair p => [p]
                       | .list l => l)).map (fun p => (p.1, BVal.int p.2))))]]⟩

/-- Source `skip(n)`: appends `{'$skip': n}`; no bounds checking. -/
def PipelineBuilder.skip (self : PipelineBuilder) (n : Int) : PipelineBuilder :=
  ⟨self.pipeline ++ [[("$skip", .int n)]]⟩

/-- Source `limit(n)`: appends `{'$limit': n}`; no bounds checking. -/
def PipelineBuilder.limit (self : PipelineBuilder) (n : Int) : PipelineBuilder :=
  ⟨self.pipeline ++ [[("$limit", .int n)]]⟩

/-- Source `unwind(field)`: appends `{'$unwind': field}` verbatim. -/
def PipelineBuilder.unwind (self : PipelineBuilder) (field : BVal) : PipelineBuilder :=
  ⟨self.pipeline ++ [[("$unwind", field)]]⟩

/-- One stage-append call on a builder, with its arguments: used to quantify
over arbitrary finite call sequences. -/
inductive Call where
  | match' : BVal → Call
  | project : BVal → Call
  | group : List GroupField → List (String × BVal) → Call
  | sort : SortArg → Call
  | skip : Int → Call
  | limit : Int → Call
  | unwind : BVal → Call

/-- Dispatch one `Call` to the corresponding builder method. -/
def applyCall (b : PipelineBuilder) : Call → PipelineBuilder
  | .match' q => b.match' q
  | .project f => b.project f
  | .group g k => b.group g k
  | .sort s => b.sort s
  | .skip n => b.skip n
  | .limit n => b.limit n
  | .unwind f => b.unwind f

/-- Run a sequence of calls, first to last, on a builder. -/
def runCalls (b : PipelineBuilder) (cs : List Call) : PipelineBuilder :=
  cs.foldl applyCall b

/-- The single stage a given call appends. -/
def stageOf : Call → Stage
  | .match' q => [("$match", q)]
  | .project f => [("$project", f)]
  | .group g k => [("$group", .doc (dupdate [("_id", .doc (g.foldl groupStep []))] k))]
  | .sort s => [("$sort",
      .doc ((pyDict (match s with
                     | .pair p => [p]
                     | .list l => l)).map (fun p => (p.1, BVal.int p.2))))]
  | .skip n => [("$skip", .int n)]
  | .limit n => [("$limit", .int n)]
  | .unwind f => [("$unwind", f)]

/-- A world with two distinct builder instances: each call of the sequence
is tagged `true` (sent to the first instance) or `false` (sent to the
second); both instances start fresh, as `PipelineBuilder()` gives each
instance its own empty list. -/
def step2 (p : PipelineBuilder × PipelineBuilder) (tc : Bool × Call) :
    PipelineBuilder × PipelineBuilder :=
  if tc.1 then (applyCall p.1 tc.2, p.2) else (p.1, applyCall p.2 tc.2)

def runCalls2 (cs : List (Bool × Call)) : PipelineBuilder × PipelineBuilder :=
  cs.foldl step2 (PipelineBuilder.init, PipelineBuilder.init)

/-! ## connection.py -/

/-- Python exceptions that the embedded `connection.py` / `repository.py`
code can observe or raise. -/
inductive PyError where
  | attributeError : String → PyError
  | keyError : String → PyError
  | bulkWriteError : PyError
  | otherError : String → PyError
deriving DecidableEq

/-- The external runtime environment of `connection.py`: whether the
`django` package is installed (queried through `find_package('django')` —
modelled from the spec: `utils.find_package` is absent from the sources and
the spec describes it as a runtime check for the host framework's
presence), and the `settings.DATABASES['mongodb']` section as the pair
`(URI, DB_NAME)` when present.  A missing section makes the settings lookup
raise a `KeyError`, per the spec's failure semantics. -/
structure Env where
  djangoInstalled : Bool
  settingsMongodb : Option (String × String)

/-- A `pymongo.MongoClient`, identified by the URI it was constructed from
(`None` allowed, as `DjangoMongoDBConnection` may pass `None` through). -/
structure MongoClient where
  host : Option String
deriving DecidableEq

/-- A `pymongo.database.Database` handle: the client it came from plus the
database name it was selected with (`client[name]`). -/
structure Database where
  client : MongoClient
  name : String
deriving DecidableEq

/-- Instance state of `MongoDBConnection`: `self.uri` and `self.client`
(initialised to `None`). -/
structure MongoDBConnection where
  uri : String
  client : Option MongoClient
deriving DecidableEq

/-- Source `MongoDBConnection(uri)`: stores the URI, `self.client = None`. -/
def MongoDBConnection.init (uri : String) : MongoDBConnection :=
  ⟨uri, none⟩

/-- Source `MongoDBConnection.get_database(database_name)`: on first use builds
`MongoClient(self.uri)` and caches it in `self.client`; returns
`self.client[database_name]`.  The result is the updated instance state
paired with the returned database handle. -/
def MongoDBConnection.get_database (self : MongoDBConnection) (database_name : String) :
    MongoDBConnection × Database :=
  match self.client with
  | some c => (self, ⟨c, database_name⟩)
  | none =>
    let c : MongoClient := ⟨some self.uri⟩
    ({ self with client := some c }, ⟨c, database_name⟩)

/-- Instance state of `DjangoMongoDBConnection`.  `db_name = none` models
the attribute never having been assigned (its read then raises
`AttributeError`); the source only ever assigns strings to it. -/
structure DjangoMongoDBConnection where
  client : Option MongoClient
  uri : Option String
  db_name : Option String
deriving DecidableEq

/-- Source `DjangoMongoDBConnection.get_db_name(use_django=True)`: with Django
installed, assigns `settings.DATABASES['mongodb']['DB_NAME']` to
`self.db_name` and returns it (a missing settings section raises
`KeyError`); otherwise returns the current `self.db_name` attribute,
raising `AttributeError` if it was never assigned. -/
def DjangoMongoDBConnection.get_db_name (env : Env) (self : DjangoMongoDBConnection)
    (use_django : Bool) : Except PyError (DjangoMongoDBConnection × String) :=
  if use_django && env.djangoInstalled then
    match env.settingsMongodb with
    | some cfg => .ok ({ self with db_name := some cfg.2 }, cfg.2)
    | none => .error (.keyError "mongodb")
  else
    match self.db_name with
    | some s => .ok (self, s)
    | none => .error (.attributeError "db_name")

/-- Source `DjangoMongoDBConnection.get_database_uri(use_django=True)`: with Django
installed, returns `settings.DATABASES['mongodb']['URI']` (raising
`KeyError` when the section is missing); otherwise returns `self.uri`. -/
def DjangoMongoDBConnection.get_database_uri (env : Env) (self : DjangoMongoDBConnection)
    (use_django : Bool) : Except PyError (Option String) :=
  if use_django && env.djangoInstalled then
    match env.settingsMongodb with
    | some cfg => .ok (some cfg.1)
    | none => .error (.keyError "mongodb")
  else
    .ok self.uri

/-- Source `DjangoMongoDBConnection(uri=None)`: sets `self.client = None`,
`self.uri = uri`, then `self.db_name = self.get_db_name()` — note that
`get_db_name` is called while `self.db_name` is still unassigned. -/
def DjangoMongoDBConnection.init (env : Env) (uri : Option String) :
    Except PyError DjangoMongoDBConnection :=
  let self0 : DjangoMongoDBConnection := { client := none, uri := uri, db_name := none }
  match DjangoMongoDBConnection.get_db_name env self0 true with
  | .ok (self1, name) => .ok { self1 with db_name := some name }
  | .error e => .error e

/-- Source `DjangoMongoDBConnection.get_database(database_name)`: on first use sets
`self.uri = self.get_database_uri()` and `self.client = MongoClient(self.uri)`;
then returns `self.client[self.db_name]` — the `database_name` argument is
never used. -/
def DjangoMongoDBConnection.get_database (env : Env) (self : DjangoMongoDBConnection)
    (database_name : String) : Except PyError (DjangoMongoDBConnection × Database) :=
  match self.client with
  | some c =>
    match self.db_name with
    | some d => .ok (self, ⟨c, d⟩)
    | none => .error (.attributeError "db_name")
  | none =>
    match DjangoMongoDBConnection.get_database_uri env self true with
    | .error e => .error e
    | .ok u =>
      let c : MongoClient := ⟨u⟩
      let self' : DjangoMongoDBConnection := { self with uri := u, client := some c }
      match self'.db_name with
      | some d => .ok (self', ⟨c, d⟩)
      | none => .error (.attributeError "db_name")

/-! ## repository.py (the part the claims need) -/

/-- A Python document: a dict of BSON-like values. -/
abbrev PyDoc : Type := List (String × BVal)

/-- The `pymongo` `InsertManyResult` returned by a successful driver call;
its contents are opaque to the wrapper, which passes it through unchanged. -/
structure InsertManyResult where
  inserted_ids : List Nat
deriving DecidableEq

/-- Is this exception a `pymongo.errors.BulkWriteError` (the only class the
`except` clause of `insert_many` catches)? -/
def PyError.isBulkWriteError : PyError → Bool
  | .bulkWriteError => true
  | _ => false

/-- The external `pymongo` collection handle, modelled by the behaviour of
its driver `insert_many` method: for a given document list it either
returns a result or raises an exception. -/
structure Collection where
  insert_many_impl : List PyDoc → Except PyError InsertManyResult

/-- Source `InsertRepository(collection)`: stores the collection handle. -/
structure InsertRepository where
  collection : Collection

/-- Source `InsertRepository.insert_many(documents)`: forwards to
`self.collection.insert_many(documents)` inside
`try: ... except BulkWriteError as bwe: pass` — a caught `BulkWriteError`
makes the method fall through and return `None` (modelled as `none`); any
other exception propagates; a successful driver result is returned
unchanged (as `some`). -/
def InsertRepository.insert_many (self : InsertRepository) (documents : List PyDoc) :
    Except PyError (Option InsertManyResult) :=
  match self.collection.insert_many_impl documents with
  | .ok r => .ok (some r)
  | .error e => if e.isBulkWriteError then .ok none else .error e

/-! ## Concrete instances used by the witness theorems -/

/-- A collection whose driver `insert_many` succeeds with an empty result. -/
def colOk : Collection := ⟨fun _ => .ok ⟨[]⟩⟩

/-- A collection whose driver `insert_many` raises `BulkWriteError`. -/
def colBulk : Collection := ⟨fun _ => .error .bulkWriteError⟩

/-- A collection whose driver `insert_many` raises a non-bulk-write error. -/
def colOther : Collection := ⟨fun _ => .error (.otherError "ServerSelectionTimeoutError")⟩

/-- A no-Django environment for witnesses. -/
def envNoDjango : Env := ⟨false, none⟩

/-- A fully-initialised Django-variant connection state for witnesses. -/
def dmcReady : DjangoMongoDBConnection :=
  ⟨some ⟨some "mongodb://localhost:27017"⟩, some "mongodb://localhost:27017", some "mydb"⟩

/-! ## Dict lemmas -/

theorem dinsert_of_not_mem {α : Type} (d : List (String × α)) (k : String) (v : α)
    (h : k ∉ d.map Prod.fst) : dinsert d k v = d ++ [(k, v)] := by
  induction d with
  | nil => rfl
  | cons p rest ih =>
    obtain ⟨k', v'⟩ := p
    simp only [List.map_cons, List.mem_cons, not_or] at h
    simp [dinsert, Ne.symm h.1, ih h.2]

theorem dupdate_of_fresh {α : Type} (l : List (String × α)) :
    ∀ d : List (String × α), (l.map Prod.fst).Nodup →
      (∀ k ∈ l.map Prod.fst, k ∉ d.map Prod.fst) →
      dupdate d l = d ++ l := by
  induction l with
  | nil => intro d _ _; simp [dupdate]
  | cons p t ih =>
    intro d hnd hfresh
    obtain ⟨k, v⟩ := p
    simp only [List.map_cons, List.nodup_cons] at hnd
    have h1 : k ∉ d.map Prod.fst := hfresh k (by simp)
    have step : dupdate d ((k, v) :: t) = dupdate (dinsert d k v) t := rfl
    rw [step, dinsert_of_not_mem d k v h1,
        ih (d ++ [(k, v)]) hnd.2 ?_, List.append_assoc]
    · rfl
    · intro k' hk'
      simp only [List.map_append, List.map_cons, List.map_nil, List.mem_append,
        List.mem_singleton, not_or]
      constructor
      · exact hfresh k' (by simp [hk'])
      · intro hEq
        exact hnd.1 (hEq ▸ hk')

theorem pyDict_of_nodup {α : Type} (l : List (String × α)) (h : (l.map Prod.fst).Nodup) :
    pyDict l = l := by
  have := dupdate_of_fresh l [] h (by simp)
  simpa [pyDict] using this

/-! ## Builder lemmas -/

theorem applyCall_build (b : PipelineBuilder) (c : Call) :
    (applyCall b c).build = b.build ++ [stageOf c] := by
  cases c <;> rfl

theorem runCalls_build (cs : List Call) :
    ∀ b : PipelineBuilder, (runCalls b cs).build = b.build ++ cs.map stageOf := by
  induction cs with
  | nil => intro b; simp [runCalls, PipelineBuilder.build]
  | cons c t ih =>
    intro b
    have step : runCalls b (c :: t) = runCalls (applyCall b c) t := rfl
    rw [step, ih, applyCall_build, List.map_cons, List.append_assoc]
    rfl

theorem foldl_step2_fst (cs : List (Bool × Call)) :
    ∀ p : PipelineBuilder × PipelineBuilder,
      (cs.foldl step2 p).1.build
        = p.1.build ++ ((cs.filter fun tc => tc.1).map fun tc => stageOf tc.2) := by
  induction cs with
  | nil => intro p; simp
  | cons tc t ih =>
    intro p
    obtain ⟨flag, c⟩ := tc
    cases flag with
    | true =>
      have step : ((true, c) :: t).foldl step2 p = t.foldl step2 (applyCall p.1 c, p.2) := rfl
      rw [step, ih]
      simp [applyCall_build]
    | false =>
      have step : ((false, c) :: t).foldl step2 p = t.foldl step2 (p.1, applyCall p.2 c) := rfl
      rw [step, ih]
      simp

theorem stageOf_length (c : Call) : (stageOf c).length = 1 := by
  cases c <;> rfl

theorem groupStep_fieldNames (fields : List String) :
    ∀ acc : List (String × BVal),
      (fields.map GroupField.fieldName).foldl groupStep acc
        = dupdate acc (fields.map fun f => (f, BVal.str ("$" ++ f))) := by
  induction fields with
  | nil => intro acc; rfl
  | cons f t ih =>
    intro acc
    have lhs : ((f :: t).map GroupField.fieldName).foldl groupStep acc
        = (t.map GroupField.fieldName).foldl groupStep (dinsert acc f (.str ("$" ++ f))) := rfl
    have rhs : dupdate acc ((f :: t).map fun g => (g, BVal.str ("$" ++ g)))
        = dupdate (dinsert acc f (.str ("$" ++ f))) (t.map fun g => (g, BVal.str ("$" ++ g))) := rfl
    rw [lhs, rhs, ih]

/-! ## Claim theorems -/

/-- C1: every finite sequence of stage-append calls on one `PipelineBuilder`
yields, via `build()`, exactly one stage per call in call order, with no
reordering or deduplication; a builder's result is unaffected by calls made
on a second builder instance (no shared mutable state); and
`skip(5)` then `limit(10)` then `build()` yields
`[{"$skip": 5}, {"$limit": 10}]` in that order. -/
theorem build_returns_one_stage_per_call_in_order :
    (∀ cs : List Call, (runCalls PipelineBuilder.init cs).build = cs.map stageOf)
    ∧ (∀ cs : List (Bool × Call),
        (runCalls2 cs).1.build = ((cs.filter fun tc => tc.1).map fun tc => stageOf tc.2))
    ∧ ((PipelineBuilder.init.skip 5).limit 10).build
        = [[("$skip", BVal.int 5)], [("$limit", BVal.int 10)]] := by
  refine ⟨fun cs => ?_, fun cs => ?_, rfl⟩
  · rw [runCalls_build]; rfl
  · rw [show runCalls2 cs = cs.foldl step2 (PipelineBuilder.init, PipelineBuilder.init) from rfl,
        foldl_step2_fst]
    rfl

/-- C7: `build()` is a pure read of the accumulated stage list and does not
reset the builder: after any builder state is observed with `build()`, one
further stage-append call yields a builder whose `build()` returns all
previously accumulated stages followed by the newly appended one. -/
theorem build_does_not_reset_builder (b : PipelineBuilder) (c : Call) :
    (applyCall b c).build = b.build ++ [stageOf c] := by
  exact applyCall_build b c

/-- C8: every stage appended by any builder operation is a dict with exactly
one top-level key (the operator name), so after any call sequence every
element of the pipeline returned by `build()` has exactly one top-level
key. -/
theorem every_stage_has_one_key (cs : List Call) (s : Stage)
    (h : s ∈ (runCalls PipelineBuilder.init cs).build) : s.length = 1 := by
  rw [runCalls_build] at h
  simp only [PipelineBuilder.init, PipelineBuilder.build, List.nil_append,
    List.mem_map] at h
  obtain ⟨c, _, rfl⟩ := h
  exact stageOf_length c

/-- Witness for C8 at the concrete call sequence `[skip 5]` and its single
stage `{"$skip": 5}`. -/
theorem every_stage_has_one_key_witness :
    ([("$skip", BVal.int 5)] : Stage).length = 1 :=
  every_stage_has_one_key [Call.skip 5] [("$skip", BVal.int 5)]
    (show _ ∈ [[("$skip", BVal.int 5)]] from List.mem_singleton.mpr rfl)

/-- C6: `sort` wraps a lone `(field, direction)` tuple into a one-element
list, so `sort(p)` and `sort([p])` append identical stages; in particular
`sort(("x", -1))` appends `{"$sort": {"x": -1}}`; and for pairwise-distinct
field names the `$sort` mapping lists the fields in declared input order,
e.g. `sort([("a", 1), ("b", -1)])` appends `{"$sort": {"a": 1, "b": -1}}`. -/
theorem sort_tuple_equals_singleton_list :
    (∀ (b : PipelineBuilder) (p : String × Int),
        (b.sort (.pair p)).build = (b.sort (.list [p])).build)
    ∧ (∀ b : PipelineBuilder, (b.sort (.pair ("x", -1))).build
        = b.build ++ [[("$sort", BVal.doc [("x", BVal.int (-1))])]])
    ∧ (∀ (b : PipelineBuilder) (l : List (String × Int)), (l.map Prod.fst).Nodup →
        (b.sort (.list l)).build
          = b.build ++ [[("$sort", BVal.doc (l.map fun p => (p.1, BVal.int p.2)))]])
    ∧ (∀ b : PipelineBuilder, (b.sort (.list [("a", 1), ("b", -1)])).build
        = b.build ++ [[("$sort", BVal.doc [("a", BVal.int 1), ("b", BVal.int (-1))])]]) := by
  refine ⟨fun b p => rfl, fun b => rfl, fun b l h => ?_, fun b => rfl⟩
  show b.pipeline ++ _ = b.pipeline ++ _
  rw [pyDict_of_nodup l h]

/-- Witness for C6 at the concrete distinct-field list
`[("a", 1), ("c", 2)]`. -/
theorem sort_tuple_equals_singleton_list_witness :
    (PipelineBuilder.init.sort (.list [("a", 1), ("c", 2)])).build
      = [[("$sort", BVal.doc [("a", BVal.int 1), ("c", BVal.int 2)])]] := by
  have h := sort_tuple_equals_singleton_list.2.2.1 PipelineBuilder.init
    [("a", 1), ("c", 2)] (by decide)
  simpa using h

/-- C10: duplicate sort fields are collapsed by the `dict(sortby)` call:
the resulting `$sort` mapping holds a single entry for the duplicated
field, with the direction of the last pair, at the position of the field's
first occurrence. -/
theorem sort_duplicate_field_last_direction_wins (b : PipelineBuilder) (x : String)
    (d1 d2 : Int) (rest : List (String × Int))
    (hnd : (rest.map Prod.fst).Nodup) (hx : x ∉ rest.map Prod.fst) :
    (b.sort (.list ((x, d1) :: (rest ++ [(x, d2)])))).build
      = b.build ++
        [[("$sort", BVal.doc (((x, d2) :: rest).map fun p => (p.1, BVal.int p.2)))]] := by
  show b.pipeline ++ _ = b.pipeline ++ _
  have h1 : pyDict ((x, d1) :: (rest ++ [(x, d2)]))
      = dupdate (dupdate [(x, d1)] rest) [(x, d2)] := by
    show dupdate (dinsert [] x d1) (rest ++ [(x, d2)]) = _
    simp [dupdate, dinsert, List.foldl_append]
  have h2 : dupdate [(x, d1)] rest = (x, d1) :: rest := by
    have := dupdate_of_fresh rest [(x, d1)] hnd ?_
    · simpa using this
    · intro k hk
      simp only [List.map_cons, List.map_nil, List.mem_singleton]
      intro hEq
      exact hx (hEq ▸ hk)
  have h3 : dupdate ((x, d1) :: rest) [(x, d2)] = (x, d2) :: rest := by
    simp [dupdate, dinsert]
  rw [h1, h2, h3]

/-- Witness for C10 at the concrete list `[("a", 1), ("b", 2), ("a", 3)]`:
the `$sort` mapping is `{"a": 3, "b": 2}`. -/
theorem sort_duplicate_field_last_direction_wins_witness :
    (PipelineBuilder.init.sort (.list [("a", 1), ("b", 2), ("a", 3)])).build
      = [[("$sort", BVal.doc [("a", BVal.int 3), ("b", BVal.int 2)])]] := by
  have h := sort_duplicate_field_last_direction_wins PipelineBuilder.init "a" 1 3
    [("b", 2)] (by decide) (by decide)
  simpa using h

theorem map_fst_fieldRefs (fields : List String) :
    (fields.map fun f => (f, BVal.str ("$" ++ f))).map Prod.fst = fields := by
  induction fields with
  | nil => rfl
  | cons f t ih => simpa using ih

/-- C2: `group` appends a single `$group` stage whose `_id` maps each plain
string field `f` of `groupby`, in supplied order, to `"$f"`; dict entries of
`groupby` merge their pairs into the identifier in order with duplicate
field names overwriting in place; and the accumulator keywords appear as
sibling keys alongside `_id` (not deduplicated against identifier keys).
In particular `group(["a", "b"], total=expr)` appends
`{"$group": {"_id": {"a": "$a", "b": "$b"}, "total": expr}}`. -/
theorem group_stage_structure :
    (∀ (b : PipelineBuilder) (fields : List String) (kwargs : List (String × BVal)),
        fields.Nodup → (kwargs.map Prod.fst).Nodup → "_id" ∉ kwargs.map Prod.fst →
        (b.group (fields.map GroupField.fieldName) kwargs).build
          = b.build ++ [[("$group", BVal.doc
              (("_id", BVal.doc (fields.map fun f => (f, BVal.str ("$" ++ f)))) :: kwargs))]])
    ∧ (∀ (b : PipelineBuilder) (expr : BVal),
        (b.group [GroupField.fieldName "a", GroupField.fieldName "b"] [("total", expr)]).build
          = b.build ++ [[("$group", BVal.doc
              [("_id", BVal.doc [("a", BVal.str "$a"), ("b", BVal.str "$b")]),
               ("total", expr)])]])
    ∧ (∀ (b : PipelineBuilder) (v : BVal),
        (b.group [GroupField.fieldName "a", GroupField.mapping [("a", v)]] []).build
          = b.build ++ [[("$group", BVal.doc [("_id", BVal.doc [("a", v)])])]]) := by
  refine ⟨fun b fields kwargs hf hk hid => ?_, fun b expr => rfl, fun b v => rfl⟩
  show b.pipeline ++ _ = b.pipeline ++ _
  have hmap : (fields.map fun f => (f, BVal.str ("$" ++ f))).map Prod.fst = fields :=
    map_fst_fieldRefs fields
  have hid1 : (fields.map GroupField.fieldName).foldl groupStep []
      = fields.map fun f => (f, BVal.str ("$" ++ f)) := by
    rw [groupStep_fieldNames]
    have := dupdate_of_fresh (fields.map fun f => (f, BVal.str ("$" ++ f))) []
      (by rw [hmap]; exact hf) (by simp)
    simpa using this
  have hsib : dupdate [("_id", BVal.doc (fields.map fun f => (f, BVal.str ("$" ++ f))))] kwargs
      = ("_id", BVal.doc (fields.map fun f => (f, BVal.str ("$" ++ f)))) :: kwargs := by
    have := dupdate_of_fresh kwargs
      [("_id", BVal.doc (fields.map fun f => (f, BVal.str ("$" ++ f))))] hk ?_
    · simpa using this
    · intro k hkmem
      simp only [List.map_cons, List.map_nil, List.mem_singleton]
      intro hEq
      exact hid (hEq ▸ hkmem)
  rw [hid1, hsib]

/-- Witness for C2 at `group(["a", "b"], total=1)`. -/
theorem group_stage_structure_witness :
    (PipelineBuilder.init.group [GroupField.fieldName "a", GroupField.fieldName "b"]
        [("total", BVal.int 1)]).build
      = [[("$group", BVal.doc
          [("_id", BVal.doc [("a", BVal.str "$a"), ("b", BVal.str "$b")]),
           ("total", BVal.int 1)])]] := by
  have h := group_stage_structure.1 PipelineBuilder.init ["a", "b"] [("total", BVal.int 1)]
    (by decide) (by decide) (by decide)
  simpa using h

/-- C5: on a `MongoDBConnection`, the first `get_database` call builds one
client from the constructor URI and caches it in `self.client`; any call on
an instance whose client is already cached returns that same client's
database, named by the argument, changing no state and constructing no new
client. -/
theorem mongodb_connection_memoizes_client :
    (∀ (u n : String),
        (MongoDBConnection.init u).get_database n
          = (⟨u, some ⟨some u⟩⟩, ⟨⟨some u⟩, n⟩))
    ∧ (∀ (self : MongoDBConnection) (c : MongoClient) (n : String),
        self.client = some c → self.get_database n = (self, ⟨c, n⟩)) := by
  refine ⟨fun u n => rfl, fun self c n h => ?_⟩
  obtain ⟨uri, cl⟩ := self
  cases h
  rfl

/-- Witness for C5: a second `get_database` call on the state produced by
the first call reuses the cached client and leaves the state unchanged. -/
theorem mongodb_connection_memoizes_client_witness :
    (MongoDBConnection.get_database ⟨"mongodb://h", some ⟨some "mongodb://h"⟩⟩ "db2")
      = (⟨"mongodb://h", some ⟨some "mongodb://h"⟩⟩, ⟨⟨some "mongodb://h"⟩, "db2"⟩) :=
  mongodb_connection_memoizes_client.2 ⟨"mongodb://h", some ⟨some "mongodb://h"⟩⟩
    ⟨some "mongodb://h"⟩ "db2" rfl

/-- C9: `DjangoMongoDBConnection.get_database` never uses its
`database_name` argument: any two argument values give the same result, and
a successful call returns a handle to the database named by the instance's
cached `db_name` field (which the call leaves unchanged). -/
theorem django_get_database_ignores_argument :
    (∀ (env : Env) (self : DjangoMongoDBConnection) (n1 n2 : String),
        DjangoMongoDBConnection.get_database env self n1
          = DjangoMongoDBConnection.get_database env self n2)
    ∧ (∀ (env : Env) (self self' : DjangoMongoDBConnection) (n : String) (db : Database),
        DjangoMongoDBConnection.get_database env self n = .ok (self', db) →
        self'.db_name = some db.name ∧ self'.db_name = self.db_name) := by
  refine ⟨fun env self n1 n2 => rfl, fun env self self' n db h => ?_⟩
  obtain ⟨cl, uri, dbn⟩ := self
  obtain ⟨dj, st⟩ := env
  cases cl <;> cases dbn <;> cases dj <;> cases st <;>
    simp_all [DjangoMongoDBConnection.get_database, DjangoMongoDBConnection.get_database_uri] <;>
    obtain ⟨rfl, rfl⟩ := h <;> simp

/-- Witness for C9 on a fully-initialised instance: both parts at concrete
inputs. -/
theorem django_get_database_ignores_argument_witness :
    DjangoMongoDBConnection.get_database envNoDjango dmcReady "n1"
      = DjangoMongoDBConnection.get_database envNoDjango dmcReady "n2"
    ∧ dmcReady.db_name = some "mydb" ∧ dmcReady.db_name = dmcReady.db_name :=
  ⟨django_get_database_ignores_argument.1 envNoDjango dmcReady "n1" "n2",
   django_get_database_ignores_argument.2 envNoDjango dmcReady dmcReady "n1"
     ⟨⟨some "mongodb://localhost:27017"⟩, "mydb"⟩ rfl⟩

/-- C3 (code bug): when Django is absent, constructing
`DjangoMongoDBConnection(uri)` raises `AttributeError` — `__init__` calls
`get_db_name()`, whose non-Django branch reads `self.db_name` before that
attribute has ever been assigned — so the class cannot behave like
`MongoDBConnection` (whose construction, by contrast, always succeeds). -/
theorem django_init_without_django_raises (settings : Option (String × String))
    (uri : Option String) :
    DjangoMongoDBConnection.init ⟨false, settings⟩ uri
      = .error (.attributeError "db_name") := by
  rfl

/-- C4: `InsertRepository.insert_many` forwards to the driver's
`insert_many`; a successful driver result is returned unchanged; a raised
`BulkWriteError` is caught and discarded, making the method return `None`;
any other exception propagates unchanged. -/
theorem insert_many_swallows_bulk_write_error (col : Collection) (docs : List PyDoc) :
    (∀ r, col.insert_many_impl docs = .ok r →
        (InsertRepository.mk col).insert_many docs = .ok (some r))
    ∧ (col.insert_many_impl docs = .error .bulkWriteError →
        (InsertRepository.mk col).insert_many docs = .ok none)
    ∧ (∀ e, col.insert_many_impl docs = .error e → e.isBulkWriteError = false →
        (InsertRepository.mk col).insert_many docs = .error e) := by
  refine ⟨fun r h => ?_, fun h => ?_, fun e h he => ?_⟩
  · simp [InsertRepository.insert_many, h]
  · simp [InsertRepository.insert_many, h, PyError.isBulkWriteError]
  · simp [InsertRepository.insert_many, h, he]

/-- Witness for C4: one collection per behaviour (success, bulk-write
error, other error), each at the concrete document list `[]`. -/
theorem insert_many_swallows_bulk_write_error_witness :
    (InsertRepository.mk colOk).insert_many [] = .ok (some ⟨[]⟩)
    ∧ (InsertRepository.mk colBulk).insert_many [] = .ok none
    ∧ (InsertRepository.mk colOther).insert_many []
        = .error (.otherError "ServerSelectionTimeoutError") :=
  ⟨(insert_many_swallows_bulk_write_error colOk []).1 ⟨[]⟩ rfl,
   (insert_many_swallows_bulk_write_error colBulk []).2.1 rfl,
   (insert_many_swallows_bulk_write_error colOther []).2.2 _ rfl rfl⟩
